import Mathlib

/-!
# Verification of the London crime-analysis dashboard pipeline

Shallow embedding of `dashboard_code.py`. Tabular data (pandas
DataFrames) is modelled as `List` of row structures; `CrimeRatePer1000`
and `Population` (floats in the source) are modelled as rationals;
`CrimeCount`, `Year` and `Month` as integers.  A pandas `NaN` produced
by the mean of an empty column is modelled as `Option.none`; a raised
pandas exception is modelled with `Except.error`.

Pandas `groupby(..., as_index=False).agg(...)` is modelled by listing
the distinct key tuples of the input (`keysOf`) and emitting one output
row per key with the requested reductions over that key's group.  Pandas
emits the group keys in sorted order; our embedding lists them in the
order produced by `List.dedup`.  Every property proved below is
insensitive to the order in which the group keys are listed.
-/

/-- One row of `updated_crime_data_with_rate.csv` as used by the code
(`crime_data`), column names kept from the source. -/
structure CrimeRow where
  Boroughs : String
  Year : Int
  Month : Int
  MajorCrime : String
  CrimeCount : Int
  CrimeRatePer1000 : ℚ
  Population : ℚ
deriving DecidableEq, Repr

/-- `get_season` (dashboard_code.py lines 30–38): membership tests on the
literal month lists, with the bare `else` returning `"Autumn"`. -/
def get_season (month : Int) : String :=
  if month ∈ [(12 : Int), 1, 2] then "Winter"
  else if month ∈ [(3 : Int), 4, 5] then "Spring"
  else if month ∈ [(6 : Int), 7, 8] then "Summer"
  else "Autumn"

/-- The derived `Season` column (line 40):
`crime_data['Season'] = crime_data['Month'].apply(get_season)`. -/
def season (r : CrimeRow) : String := get_season r.Month

/-- The distinct key tuples of `rows` under key function `key`; one
output row per element models `groupby(key).agg(...)`. -/
def keysOf {α κ : Type} [DecidableEq κ] (key : α → κ) (rows : List α) : List κ :=
  (rows.map key).dedup

/-- The group of rows sharing key value `k`. -/
def groupRows {α κ : Type} [DecidableEq κ] (key : α → κ) (rows : List α) (k : κ) : List α :=
  rows.filter (fun r => key r = k)

/-- `agg({col: 'sum'})` for one group. -/
def groupSumZ {α κ : Type} [DecidableEq κ] (f : α → Int) (key : α → κ)
    (rows : List α) (k : κ) : Int :=
  ((groupRows key rows k).map f).sum

/-- Arithmetic mean of a list of rationals; pandas never applies it to an
empty group inside `groupby` (groups are nonempty by construction), so
the junk value on `[]` is never relied upon. -/
def meanQ (l : List ℚ) : ℚ := l.sum / l.length

/-- Column mean as pandas `.mean()` computes it on a possibly-empty
column: `none` models the `NaN` returned for an empty column. -/
def meanQ? (l : List ℚ) : Option ℚ :=
  if l.isEmpty then none else some (meanQ l)

/-- `agg({col: 'mean'})` for one group. -/
def groupMeanQ {α κ : Type} [DecidableEq κ] (f : α → ℚ) (key : α → κ)
    (rows : List α) (k : κ) : ℚ :=
  meanQ ((groupRows key rows k).map f)

/-- Output row of `borough_data` (lines 43–46). -/
structure BoroughAgg where
  Boroughs : String
  CrimeCount : Int
  CrimeRatePer1000 : ℚ
deriving DecidableEq, Repr

/-- `borough_data = crime_data.groupby('Boroughs', as_index=False).agg(
{'CrimeCount': 'sum', 'CrimeRatePer1000': 'mean'})` (lines 43–46),
as a function of the loaded table. -/
def borough_data (rows : List CrimeRow) : List BoroughAgg :=
  (keysOf (fun r => r.Boroughs) rows).map fun b =>
    ⟨b, groupSumZ (fun r => r.CrimeCount) (fun r => r.Boroughs) rows b,
        groupMeanQ (fun r => r.CrimeRatePer1000) (fun r => r.Boroughs) rows b⟩

/-- Output row of `seasonal_data` (lines 49–52). -/
structure SeasonalAgg where
  Boroughs : String
  Season : String
  CrimeCount : Int
  CrimeRatePer1000 : ℚ
deriving DecidableEq, Repr

/-- The `['Boroughs', 'Season']` group key of lines 49–52. -/
def seasonKey (r : CrimeRow) : String × String := (r.Boroughs, season r)

/-- `seasonal_data = crime_data.groupby(['Boroughs', 'Season'],
as_index=False).agg({'CrimeCount': 'sum', 'CrimeRatePer1000': 'mean'})`
(lines 49–52). -/
def seasonal_data (rows : List CrimeRow) : List SeasonalAgg :=
  (keysOf seasonKey rows).map fun k =>
    ⟨k.1, k.2, groupSumZ (fun r => r.CrimeCount) seasonKey rows k,
        groupMeanQ (fun r => r.CrimeRatePer1000) seasonKey rows k⟩

/-- Output row of `yearly_data` (lines 55–58). -/
structure YearlyAgg where
  Year : Int
  MajorCrime : String
  CrimeCount : Int
  CrimeRatePer1000 : ℚ
deriving DecidableEq, Repr

/-- The `['Year', 'MajorCrime']` group key of lines 55–58. -/
def yearKey (r : CrimeRow) : Int × String := (r.Year, r.MajorCrime)

/-- `yearly_data = crime_data.groupby(['Year', 'MajorCrime'],
as_index=False).agg({'CrimeCount': 'sum', 'CrimeRatePer1000': 'mean'})`
(lines 55–58). -/
def yearly_data (rows : List CrimeRow) : List YearlyAgg :=
  (keysOf yearKey rows).map fun k =>
    ⟨k.1, k.2, groupSumZ (fun r => r.CrimeCount) yearKey rows k,
        groupMeanQ (fun r => r.CrimeRatePer1000) yearKey rows k⟩

/-- `crime_data[crime_data['MajorCrime'] == selected_crime_type]`
(lines 304 and 335). -/
def filterByCrime (rows : List CrimeRow) (c : String) : List CrimeRow :=
  rows.filter (fun r => r.MajorCrime = c)

/-- `update_borough_comparison` (lines 280–294): filter by crime type
and borough membership, then group by borough summing `CrimeCount`; the
pairs are the (x, y) data of the rendered bar chart. -/
def update_borough_comparison (rows : List CrimeRow) (c : String)
    (bs : List String) : List (String × Int) :=
  (keysOf (fun r => r.Boroughs)
      (rows.filter fun r => r.MajorCrime = c ∧ r.Boroughs ∈ bs)).map fun b =>
    (b, groupSumZ (fun r => r.CrimeCount) (fun r => r.Boroughs)
      (rows.filter fun r => r.MajorCrime = c ∧ r.Boroughs ∈ bs) b)

/-- `idxmaxAux best l`: the entry of `best :: l` with the largest second
component, keeping the earliest entry on ties (a strictly larger value is
needed to displace the current best) — the behaviour of pandas
`Series.idxmax`. -/
def idxmaxAux {α : Type} (best : α × Int) : List (α × Int) → α × Int
  | [] => best
  | p :: t => if best.2 < p.2 then idxmaxAux p t else idxmaxAux best t

/-- pandas `Series.idxmax` on a list of (index, value) pairs; `none`
models the `ValueError` it raises on an empty series. -/
def idxmax {α : Type} : List (α × Int) → Option (α × Int)
  | [] => none
  | p :: t => some (idxmaxAux p t)

/-- pandas `Series.max` on a rational-valued series: `none` (the `NaN`
result) on an empty series, the maximum value otherwise. -/
def seriesMax : List ℚ → Option ℚ
  | [] => none
  | x :: t =>
    match seriesMax t with
    | none => some x
    | some m => some (max x m)

/-- The four figures of the statistics list (lines 307–318).  `none` in
a mean/max field models a pandas `NaN`. -/
structure Stats where
  total_crimes : Int
  average_crime_rate : Option ℚ
  most_affected_borough : String
  highest_crime_rate : Option ℚ
deriving DecidableEq, Repr

/-- `filtered_data.groupby('Boroughs')['CrimeCount'].sum()` (line 309)
as an (index, value) series. -/
def boroughCountPairs (rows : List CrimeRow) : List (String × Int) :=
  (keysOf (fun r => r.Boroughs) rows).map fun b =>
    (b, groupSumZ (fun r => r.CrimeCount) (fun r => r.Boroughs) rows b)

/-- `filtered_data.groupby('Boroughs')['CrimeRatePer1000'].mean()`
(line 310) as a series of values. -/
def boroughRateMeans (rows : List CrimeRow) : List ℚ :=
  (keysOf (fun r => r.Boroughs) rows).map fun b =>
    groupMeanQ (fun r => r.CrimeRatePer1000) (fun r => r.Boroughs) rows b

/-- `update_statistics_and_table` (lines 302–326).  The `sum` (line 307)
and `mean` (line 308) of an empty column are `0` and `NaN` respectively
and do not raise, but `idxmax` (line 309) raises a `ValueError` on an
empty series, modelled by the `Except.error` branch; the table data
(lines 321–324) repeats the `borough_data` aggregation on the filtered
rows. -/
def update_statistics_and_table (rows : List CrimeRow) (c : String) :
    Except String (Stats × List BoroughAgg) :=
  match idxmax (boroughCountPairs (filterByCrime rows c)) with
  | none => Except.error "attempt to get argmax of an empty sequence"
  | some m =>
    Except.ok
      (⟨((filterByCrime rows c).map fun r => r.CrimeCount).sum,
        meanQ? ((filterByCrime rows c).map fun r => r.CrimeRatePer1000),
        m.1,
        seriesMax (boroughRateMeans (filterByCrime rows c))⟩,
       borough_data (filterByCrime rows c))

/-- Output row of the `'All'` branch of `update_seasonal_graph`
(lines 254–257): `seasonal_data` re-grouped by `Season`. -/
structure SeasonAgg where
  Season : String
  CrimeCount : Int
  CrimeRatePer1000 : ℚ
deriving DecidableEq, Repr

/-- `seasonal_data.groupby('Season', as_index=False).agg({'CrimeCount':
'sum', 'CrimeRatePer1000': 'mean'})` (lines 254–257). -/
def seasonal_all (rows : List CrimeRow) : List SeasonAgg :=
  (keysOf (fun a => a.Season) (seasonal_data rows)).map fun s =>
    ⟨s, groupSumZ (fun a => a.CrimeCount) (fun a => a.Season) (seasonal_data rows) s,
        groupMeanQ (fun a => a.CrimeRatePer1000) (fun a => a.Season) (seasonal_data rows) s⟩

/-- The table behind the seasonal bar chart: the `'All'` branch plots
the per-season re-aggregation, the other branch the `seasonal_data` rows
of one borough. -/
inductive SeasonalFigureData
  | all (d : List SeasonAgg)
  | single (d : List SeasonalAgg)
deriving DecidableEq, Repr

/-- `update_seasonal_graph` (lines 252–272): figure data and title. -/
def update_seasonal_graph (rows : List CrimeRow) (selected : String) :
    SeasonalFigureData × String :=
  if selected = "All" then
    (SeasonalFigureData.all (seasonal_all rows),
     "Seasonal Crime Patterns Across All Boroughs")
  else
    (SeasonalFigureData.single
        ((seasonal_data rows).filter fun a => a.Boroughs = selected),
     "Seasonal Crime Patterns in " ++ selected)

/-- One feature of the boroughs GeoJSON (`geo_df`): its `name` property
and its geometry, which the dashboard consumes only through the centroid
used for label placement, so the polygon is modelled by that centroid. -/
structure GeoRow where
  name : String
  centroid_lat : ℚ
  centroid_lon : ℚ
deriving DecidableEq, Repr

/-- `str.strip().str.lower()` (lines 71–72), modelled on the character
data: drop leading and trailing whitespace, then lower-case every
character. -/
def normalizeName (s : String) : String :=
  ⟨((s.data.dropWhile Char.isWhitespace).reverse.dropWhile Char.isWhitespace).reverse.map
      Char.toLower⟩

/-- Output row of `borough_level_data` (lines 64–68). -/
structure BoroughLevelAgg where
  Boroughs : String
  Population : ℚ
  CrimeCount : Int
  CrimeRatePer1000 : ℚ
deriving DecidableEq, Repr

/-- `borough_level_data = crime_data.groupby('Boroughs',
as_index=False).agg({'Population': 'mean', 'CrimeCount': 'sum',
'CrimeRatePer1000': 'mean'})` (lines 64–68). -/
def borough_level_data (rows : List CrimeRow) : List BoroughLevelAgg :=
  (keysOf (fun r => r.Boroughs) rows).map fun b =>
    ⟨b, groupMeanQ (fun r => r.Population) (fun r => r.Boroughs) rows b,
        groupSumZ (fun r => r.CrimeCount) (fun r => r.Boroughs) rows b,
        groupMeanQ (fun r => r.CrimeRatePer1000) (fun r => r.Boroughs) rows b⟩

/-- Line 71: `geo_df['name'] = geo_df['name'].str.strip().str.lower()`;
from here on the boundary table carries normalized names. -/
def geo_df_normalized (geo : List GeoRow) : List GeoRow :=
  geo.map fun g => { g with name := normalizeName g.name }

/-- Line 72: the startup normalization of
`borough_level_data['Boroughs']`.  It rewrites only this one aggregate
frame; `crime_data.Boroughs` itself stays raw. -/
def borough_level_data_normalized (rows : List CrimeRow) : List BoroughLevelAgg :=
  (borough_level_data rows).map fun a => { a with Boroughs := normalizeName a.Boroughs }

/-- `left.merge(right, left_on='name', right_on='Boroughs')`: inner
join, left row order preserved, each left row paired with its matching
right rows in right order. -/
def mergeOnName (geo : List GeoRow) (aggs : List BoroughLevelAgg) :
    List (GeoRow × BoroughLevelAgg) :=
  geo.flatMap fun g => (aggs.filter fun a => a.Boroughs = g.name).map fun a => (g, a)

/-- `merged_geo_df` (line 75): the startup merge, both sides normalized
(lines 71–72). -/
def merged_geo_df (geo : List GeoRow) (rows : List CrimeRow) :
    List (GeoRow × BoroughLevelAgg) :=
  mergeOnName (geo_df_normalized geo) (borough_level_data_normalized rows)

/-- `borough_level_filtered` (lines 338–342): the same aggregation as
`borough_level_data`, over the crime-type-filtered rows.  Nothing
normalizes its `Boroughs` values: they come straight from
`crime_data`. -/
def borough_level_filtered (rows : List CrimeRow) (c : String) : List BoroughLevelAgg :=
  borough_level_data (filterByCrime rows c)

/-- `merged_filtered` (line 345): `geo_df` (normalized at startup)
merged with the raw-named `borough_level_filtered`. -/
def merged_filtered (geo : List GeoRow) (rows : List CrimeRow) (c : String) :
    List (GeoRow × BoroughLevelAgg) :=
  mergeOnName (geo_df_normalized geo) (borough_level_filtered rows c)

/-- `update_geospatial_map` (lines 333–375): choropleth data and title.
Its declared input id does not occur in the layout (see
`layout_component_ids`), so Dash never fires this callback. -/
def update_geospatial_map (geo : List GeoRow) (rows : List CrimeRow) (c : String) :
    List (GeoRow × BoroughLevelAgg) × String :=
  (merged_filtered geo rows c, "Crime Rates Across London Boroughs: " ++ c)

/-- The callback-written parts of the rendered page: one field per
callback `Output`. -/
structure View where
  seasonalFigure : SeasonalFigureData × String
  comparisonFigure : List (String × Int)
  statisticsContent : Option Stats
  tableData : List BoroughAgg
  mapFigure : List (GeoRow × BoroughLevelAgg) × String

/-- The whole served app: the base tables loaded at startup plus the
rendered view. -/
structure DashState where
  crime_data : List CrimeRow
  geo_df : List GeoRow
  view : View

/-- One selection-change event per control that exists in the layout and
is bound to a callback: the season-tab borough dropdown, the two
comparison-tab dropdowns (their shared callback receives both current
values), and the stats-tab crime-type dropdown.  The geospatial
callback's input control is absent from the layout, so no event reaches
it. -/
inductive SelectionEvent
  | seasonBorough (selected : String)
  | comparison (crimeType : String) (boroughs : List String)
  | statsCrimeType (crimeType : String)

/-- Dash's dispatch of one selection-change: the triggered callback
recomputes from the base tables and rewrites exactly its declared
outputs; a callback that raises (the stats callback on an empty filter)
updates nothing. -/
def applyEvent (s : DashState) : SelectionEvent → DashState
  | SelectionEvent.seasonBorough b =>
      { s with view :=
          { s.view with seasonalFigure := update_seasonal_graph s.crime_data b } }
  | SelectionEvent.comparison c bs =>
      { s with view :=
          { s.view with comparisonFigure := update_borough_comparison s.crime_data c bs } }
  | SelectionEvent.statsCrimeType c =>
      match update_statistics_and_table s.crime_data c with
      | Except.ok (st, t) =>
          { s with view :=
              { s.view with statisticsContent := some st, tableData := t } }
      | Except.error _ => s

/-- The component ids that occur in `app.layout` (lines 118–245), in
order of appearance in the source. -/
def layout_component_ids : List String :=
  ["borough-crime-bar-chart", "borough-pie-chart", "borough-dropdown",
   "seasonal-crime-pattern-graph", "yearly-trends-graph",
   "crime-type-dropdown", "borough-comparison-dropdown",
   "borough-comparison-bar-chart", "crime-type-dropdown-stats",
   "statistics-content", "crime-data-table", "crime-choropleth-map"]

/-- The id named by `Input('crime-type-dropdown-map', 'value')` of the
`update_geospatial_map` callback (line 331). -/
def geospatial_callback_input_id : String := "crime-type-dropdown-map"

/-- The id named by `Output('crime-choropleth-map', 'figure')` of the
`update_geospatial_map` callback (line 330). -/
def geospatial_callback_output_id : String := "crime-choropleth-map"

/-- A two-row demo table: `"Burglary"` occurs in it, `"Arson"` does not. -/
def demoRows : List CrimeRow :=
  [⟨"Camden", 2023, 1, "Burglary", 10, 2, 1000⟩,
   ⟨"Westminster", 2023, 7, "Robbery", 5, 1, 2000⟩]

/-- The first record of the worked end-to-end example: Camden, January,
Burglary, count 10, rate 2.0. -/
def c7row1 : CrimeRow := ⟨"Camden", 2023, 1, "Burglary", 10, 2, 1000⟩

/-- The second record of the worked end-to-end example: Camden, July,
Burglary, count 20, rate 4.0. -/
def c7row2 : CrimeRow := ⟨"Camden", 2023, 7, "Burglary", 20, 4, 1000⟩

/-- A one-feature boundary table whose stored name, `"Camden"`, is not
yet lower-cased. -/
def demoGeo : List GeoRow := [⟨"Camden", 51, 0⟩]

/-- Three winter records over two boroughs with rates 0, 2 and 10: the
unweighted mean of the per-borough means ((0+2)/2 and 10) is 11/2, while
the mean over the three base rows is 4. -/
def c10rows : List CrimeRow :=
  [⟨"Camden", 2023, 1, "Burglary", 10, 0, 1000⟩,
   ⟨"Camden", 2023, 2, "Burglary", 10, 2, 1000⟩,
   ⟨"Westminster", 2023, 1, "Burglary", 10, 10, 2000⟩]

/-- The `CrimeRatePer1000` plotted for season `s` by the `'All'` branch,
if `s` appears. -/
def seasonRateOf (l : List SeasonAgg) (s : String) : Option ℚ :=
  (l.find? fun a => a.Season = s).map fun a => a.CrimeRatePer1000

theorem keysOf_nodup {α κ : Type} [DecidableEq κ] (key : α → κ) (rows : List α) :
    (keysOf key rows).Nodup :=
  List.nodup_dedup _

theorem mem_keysOf {α κ : Type} [DecidableEq κ] {key : α → κ} {rows : List α} {k : κ} :
    k ∈ keysOf key rows ↔ ∃ r ∈ rows, key r = k := by
  simp [keysOf, List.mem_dedup]

theorem sum_map_filter_add {α M : Type} [AddCommMonoid M] (p : α → Bool)
    (f : α → M) (l : List α) :
    ((l.filter p).map f).sum + ((l.filter fun a => !(p a)).map f).sum
      = (l.map f).sum := by
  induction l with
  | nil => simp
  | cons a t ih =>
    by_cases h : p a
    · rw [show (a :: t).filter p = a :: t.filter p from by simp [List.filter_cons, h],
        show ((a :: t).filter fun x => !(p x)) = t.filter fun x => !(p x) from by
          simp [List.filter_cons, h]]
      simp only [List.map_cons, List.sum_cons]
      rw [add_assoc, ih]
    · rw [show (a :: t).filter p = t.filter p from by simp [List.filter_cons, h],
        show ((a :: t).filter fun x => !(p x)) = a :: t.filter fun x => !(p x) from by
          simp [List.filter_cons, h]]
      simp only [List.map_cons, List.sum_cons]
      rw [add_left_comm, ih]

theorem sum_groups_eq {α κ M : Type} [DecidableEq κ] [AddCommMonoid M]
    (f : α → M) (key : α → κ) :
    ∀ (ks : List κ) (rows : List α), ks.Nodup → (∀ r ∈ rows, key r ∈ ks) →
      (ks.map fun k => ((rows.filter fun r => key r = k).map f).sum).sum
        = (rows.map f).sum := by
  intro ks
  induction ks with
  | nil =>
    intro rows _ hcov
    have hrows : rows = [] := by
      cases rows with
      | nil => rfl
      | cons a t => exact absurd (hcov a (by simp)) (by simp)
    simp [hrows]
  | cons k ks ih =>
    intro rows hnd hcov
    have hk : k ∉ ks := (List.nodup_cons.1 hnd).1
    have hnd' : ks.Nodup := (List.nodup_cons.1 hnd).2
    have hcov' : ∀ r ∈ rows.filter (fun r => !(decide (key r = k))), key r ∈ ks := by
      intro r hr
      have hmem := List.mem_filter.1 hr
      have hne : key r ≠ k := by simpa using hmem.2
      rcases List.mem_cons.1 (hcov r hmem.1) with h | h
      · exact absurd h hne
      · exact h
    have h1 : ∀ k' ∈ ks, (rows.filter fun r => key r = k')
        = ((rows.filter fun r => !(decide (key r = k))).filter fun r => key r = k') := by
      intro k' hk'
      rw [List.filter_filter]
      refine (List.filter_congr ?_).symm
      intro a _
      by_cases h : key a = k'
      · have hkk : ¬ k' = k := fun he => hk (he ▸ hk')
        simp [h, hkk]
      · simp [h]
    have h2 : (ks.map fun k' => ((rows.filter fun r => key r = k').map f).sum)
        = ks.map fun k' =>
            (((rows.filter fun r => !(decide (key r = k))).filter
                fun r => key r = k').map f).sum :=
      List.map_congr_left fun k' hk' => by rw [h1 k' hk']
    simp only [List.map_cons, List.sum_cons]
    rw [h2, ih (rows.filter fun r => !(decide (key r = k))) hnd' hcov',
      sum_map_filter_add (fun r => decide (key r = k)) f rows]

theorem sum_over_keysOf {α κ M : Type} [DecidableEq κ] [AddCommMonoid M]
    (f : α → M) (key : α → κ) (rows : List α) :
    ((keysOf key rows).map fun k =>
        ((rows.filter fun r => key r = k).map f).sum).sum = (rows.map f).sum :=
  sum_groups_eq f key (keysOf key rows) rows (keysOf_nodup key rows)
    (fun r hr => mem_keysOf.2 ⟨r, hr, rfl⟩)

/-- C1. The Season Classifier is total on integer months: every month
gets exactly one of the four labels, months 12/1/2 map to Winter, 3/4/5
to Spring, 6/7/8 to Summer, everything else — including every month
outside 1–12 — to Autumn. -/
theorem get_season_total_mapping (m : Int) :
    get_season m ∈ ["Winter", "Spring", "Summer", "Autumn"] ∧
    (get_season m = "Winter" ↔ m = 12 ∨ m = 1 ∨ m = 2) ∧
    (get_season m = "Spring" ↔ m = 3 ∨ m = 4 ∨ m = 5) ∧
    (get_season m = "Summer" ↔ m = 6 ∨ m = 7 ∨ m = 8) ∧
    (get_season m = "Autumn" ↔
      ¬(m = 12 ∨ m = 1 ∨ m = 2) ∧ ¬(m = 3 ∨ m = 4 ∨ m = 5) ∧
      ¬(m = 6 ∨ m = 7 ∨ m = 8)) ∧
    (m < 1 ∨ 12 < m → get_season m = "Autumn") := by
  simp only [get_season, List.mem_cons, List.mem_singleton, List.not_mem_nil, or_false]
  split_ifs with h1 h2 h3 <;>
    refine ⟨by simp, ?_, ?_, ?_, ?_, ?_⟩ <;>
    simp_all <;> omega

/-- Witness for `get_season_total_mapping` at the out-of-range month 13. -/
theorem get_season_total_mapping_witness :
    (13 : Int) < 1 ∨ (12 : Int) < 13 ∧ get_season 13 = "Autumn" :=
  Or.inr ⟨by norm_num, (get_season_total_mapping 13).2.2.2.2.2 (Or.inr (by norm_num))⟩

/-- C3. Filtering by a `MajorCrime` value present in the table yields a
non-empty result whose rows all carry that value; filtering by an absent
value yields zero rows. -/
theorem filterByCrime_present_absent (rows : List CrimeRow) (c : String) :
    ((∃ r ∈ rows, r.MajorCrime = c) →
      filterByCrime rows c ≠ [] ∧ ∀ r ∈ filterByCrime rows c, r.MajorCrime = c) ∧
    ((∀ r ∈ rows, r.MajorCrime ≠ c) → filterByCrime rows c = []) := by
  constructor
  · rintro ⟨r, hr, hc⟩
    constructor
    · intro hnil
      have : r ∈ filterByCrime rows c := by
        simp [filterByCrime, List.mem_filter, hr, hc]
      simp [hnil] at this
    · intro s hs
      have := List.of_mem_filter hs
      simpa using this
  · intro h
    simp only [filterByCrime, List.filter_eq_nil_iff, decide_eq_true_eq]
    exact h

/-- Witness for `filterByCrime_present_absent`: instantiated on
`demoRows` with a present and an absent crime type. -/
theorem filterByCrime_present_absent_witness :
    filterByCrime demoRows "Burglary" ≠ [] ∧ filterByCrime demoRows "Arson" = [] :=
  ⟨((filterByCrime_present_absent demoRows "Burglary").1
      ⟨⟨"Camden", 2023, 1, "Burglary", 10, 2, 1000⟩, by simp [demoRows], rfl⟩).1,
   (filterByCrime_present_absent demoRows "Arson").2 (by decide)⟩

/-- C5. The map-tab crime-type selector is missing: the geospatial
callback's declared input id appears nowhere in the served layout (its
output graph does), so no selection-change on it can ever occur. -/
theorem geospatial_input_not_in_layout :
    geospatial_callback_input_id ∉ layout_component_ids ∧
    geospatial_callback_output_id ∈ layout_component_ids := by
  decide

/-- C7. On the two-record example, the Borough Aggregate is the single
row (Camden, 30, 3.0) and the Seasonal Aggregate consists of exactly the
rows (Camden, Winter, 10, 2.0) and (Camden, Summer, 20, 4.0). -/
theorem example_two_records_aggregates :
    borough_data [c7row1, c7row2] = [⟨"Camden", 30, 3⟩] ∧
    (seasonal_data [c7row1, c7row2]).length = 2 ∧
    (⟨"Camden", "Winter", 10, 2⟩ : SeasonalAgg) ∈ seasonal_data [c7row1, c7row2] ∧
    (⟨"Camden", "Summer", 20, 4⟩ : SeasonalAgg) ∈ seasonal_data [c7row1, c7row2] := by
  refine ⟨?_, ?_, ?_, ?_⟩ <;>
    simp +decide [borough_data, seasonal_data, keysOf, groupSumZ, groupMeanQ,
      groupRows, meanQ, seasonKey, season, get_season, c7row1, c7row2,
      BoroughAgg.mk.injEq, SeasonalAgg.mk.injEq] <;>
    norm_num

/-- C2. At each of the four aggregation call sites (`borough_data`,
`seasonal_data`, `yearly_data`, and the comparison callback's filtered
aggregation), the output has exactly one row per distinct group-key
tuple present in the input — the output keys are duplicate-free and are
exactly the keys occurring in the input — and the per-group `CrimeCount`
sums add up to the `CrimeCount` sum over the whole (filtered) input. -/
theorem aggregate_sites_one_row_per_key_and_sum
    (rows : List CrimeRow) (c : String) (bs : List String) :
    (((borough_data rows).map fun a => a.Boroughs).Nodup ∧
      (∀ b, (b ∈ (borough_data rows).map fun a => a.Boroughs) ↔
        ∃ r ∈ rows, r.Boroughs = b) ∧
      ((borough_data rows).map fun a => a.CrimeCount).sum
        = (rows.map fun r => r.CrimeCount).sum) ∧
    (((seasonal_data rows).map fun a => (a.Boroughs, a.Season)).Nodup ∧
      (∀ k, (k ∈ (seasonal_data rows).map fun a => (a.Boroughs, a.Season)) ↔
        ∃ r ∈ rows, seasonKey r = k) ∧
      ((seasonal_data rows).map fun a => a.CrimeCount).sum
        = (rows.map fun r => r.CrimeCount).sum) ∧
    (((yearly_data rows).map fun a => (a.Year, a.MajorCrime)).Nodup ∧
      (∀ k, (k ∈ (yearly_data rows).map fun a => (a.Year, a.MajorCrime)) ↔
        ∃ r ∈ rows, yearKey r = k) ∧
      ((yearly_data rows).map fun a => a.CrimeCount).sum
        = (rows.map fun r => r.CrimeCount).sum) ∧
    (((update_borough_comparison rows c bs).map fun p => p.1).Nodup ∧
      (∀ b, (b ∈ (update_borough_comparison rows c bs).map fun p => p.1) ↔
        ∃ r ∈ rows.filter (fun r => r.MajorCrime = c ∧ r.Boroughs ∈ bs),
          r.Boroughs = b) ∧
      ((update_borough_comparison rows c bs).map fun p => p.2).sum
        = ((rows.filter fun r => r.MajorCrime = c ∧ r.Boroughs ∈ bs).map
            fun r => r.CrimeCount).sum) := by
  have hb : ((borough_data rows).map fun a => a.Boroughs)
      = keysOf (fun r => r.Boroughs) rows := by
    simp [borough_data, List.map_map, Function.comp_def]
  have hbsum : ((borough_data rows).map fun a => a.CrimeCount)
      = (keysOf (fun r => r.Boroughs) rows).map fun k =>
          ((rows.filter fun r => r.Boroughs = k).map fun r => r.CrimeCount).sum := by
    simp [borough_data, List.map_map, Function.comp_def, groupSumZ, groupRows]
  have hs : ((seasonal_data rows).map fun a => (a.Boroughs, a.Season))
      = keysOf seasonKey rows := by
    simp [seasonal_data, List.map_map, Function.comp_def]
  have hssum : ((seasonal_data rows).map fun a => a.CrimeCount)
      = (keysOf seasonKey rows).map fun k =>
          ((rows.filter fun r => seasonKey r = k).map fun r => r.CrimeCount).sum := by
    simp [seasonal_data, List.map_map, Function.comp_def, groupSumZ, groupRows]
  have hy : ((yearly_data rows).map fun a => (a.Year, a.MajorCrime))
      = keysOf yearKey rows := by
    simp [yearly_data, List.map_map, Function.comp_def]
  have hysum : ((yearly_data rows).map fun a => a.CrimeCount)
      = (keysOf yearKey rows).map fun k =>
          ((rows.filter fun r => yearKey r = k).map fun r => r.CrimeCount).sum := by
    simp [yearly_data, List.map_map, Function.comp_def, groupSumZ, groupRows]
  have hc : ((update_borough_comparison rows c bs).map fun p => p.1)
      = keysOf (fun r => r.Boroughs)
          (rows.filter fun r => r.MajorCrime = c ∧ r.Boroughs ∈ bs) := by
    simp [update_borough_comparison, List.map_map, Function.comp_def]
  have hcsum : ((update_borough_comparison rows c bs).map fun p => p.2)
      = (keysOf (fun r => r.Boroughs)
          (rows.filter fun r => r.MajorCrime = c ∧ r.Boroughs ∈ bs)).map fun k =>
          (((rows.filter fun r => r.MajorCrime = c ∧ r.Boroughs ∈ bs).filter
              fun r => r.Boroughs = k).map fun r => r.CrimeCount).sum := by
    simp [update_borough_comparison, List.map_map, Function.comp_def, groupSumZ, groupRows]
  refine ⟨⟨?_, ?_, ?_⟩, ⟨?_, ?_, ?_⟩, ⟨?_, ?_, ?_⟩, ⟨?_, ?_, ?_⟩⟩
  · rw [hb]; exact keysOf_nodup _ _
  · intro b; rw [hb]; exact mem_keysOf
  · rw [hbsum]; exact sum_over_keysOf _ _ _
  · rw [hs]; exact keysOf_nodup _ _
  · intro k; rw [hs]; exact mem_keysOf
  · rw [hssum]; exact sum_over_keysOf _ _ _
  · rw [hy]; exact keysOf_nodup _ _
  · intro k; rw [hy]; exact mem_keysOf
  · rw [hysum]; exact sum_over_keysOf _ _ _
  · rw [hc]; exact keysOf_nodup _ _
  · intro b; rw [hc]; exact mem_keysOf
  · rw [hcsum]; exact sum_over_keysOf _ _ _

theorem idxmaxAux_mem {α : Type} (best : α × Int) (l : List (α × Int)) :
    idxmaxAux best l = best ∨ idxmaxAux best l ∈ l := by
  induction l generalizing best with
  | nil => left; rfl
  | cons p t ih =>
    simp only [idxmaxAux]
    by_cases h : best.2 < p.2
    · rw [if_pos h]
      rcases ih p with h1 | h1
      · right; rw [h1]; exact List.mem_cons_self p t
      · right; exact List.mem_cons_of_mem p h1
    · rw [if_neg h]
      rcases ih best with h1 | h1
      · left; exact h1
      · right; exact List.mem_cons_of_mem p h1

theorem idxmaxAux_ge {α : Type} (best : α × Int) (l : List (α × Int)) :
    best.2 ≤ (idxmaxAux best l).2 ∧ ∀ p ∈ l, p.2 ≤ (idxmaxAux best l).2 := by
  induction l generalizing best with
  | nil => exact ⟨le_refl _, by simp⟩
  | cons q t ih =>
    simp only [idxmaxAux]
    by_cases h : best.2 < q.2
    · rw [if_pos h]
      rcases ih q with ⟨h1, h2⟩
      refine ⟨le_of_lt (lt_of_lt_of_le h h1), ?_⟩
      intro p hp
      rcases List.mem_cons.1 hp with rfl | hp
      · exact h1
      · exact h2 p hp
    · rw [if_neg h]
      rcases ih best with ⟨h1, h2⟩
      refine ⟨h1, ?_⟩
      intro p hp
      rcases List.mem_cons.1 hp with rfl | hp
      · exact le_trans (le_of_not_lt h) h1
      · exact h2 p hp

theorem idxmax_mem {α : Type} {l : List (α × Int)} {m : α × Int}
    (h : idxmax l = some m) : m ∈ l := by
  cases l with
  | nil => cases h
  | cons p t =>
    have hm : idxmaxAux p t = m := by
      have := h
      simp only [idxmax, Option.some.injEq] at this
      exact this
    rcases idxmaxAux_mem p t with h1 | h1
    · rw [← hm, h1]; exact List.mem_cons_self p t
    · rw [← hm]; exact List.mem_cons_of_mem p h1

theorem idxmax_ge {α : Type} {l : List (α × Int)} {m : α × Int}
    (h : idxmax l = some m) : ∀ p ∈ l, p.2 ≤ m.2 := by
  cases l with
  | nil => cases h
  | cons p t =>
    have hm : idxmaxAux p t = m := by
      have := h
      simp only [idxmax, Option.some.injEq] at this
      exact this
    intro q hq
    rcases List.mem_cons.1 hq with rfl | hq
    · rw [← hm]; exact (idxmaxAux_ge q t).1
    · rw [← hm]; exact (idxmaxAux_ge p t).2 q hq

theorem seriesMax_eq_none {l : List ℚ} : seriesMax l = none ↔ l = [] := by
  cases l with
  | nil => simp [seriesMax]
  | cons x t =>
    simp only [seriesMax]
    cases seriesMax t <;> simp

theorem seriesMax_mem {l : List ℚ} {m : ℚ} (h : seriesMax l = some m) : m ∈ l := by
  induction l generalizing m with
  | nil => cases h
  | cons x t ih =>
    simp only [seriesMax] at h
    cases ht : seriesMax t with
    | none =>
      rw [ht] at h
      simp only [Option.some.injEq] at h
      rw [← h]; exact List.mem_cons_self x t
    | some mt =>
      rw [ht] at h
      simp only [Option.some.injEq] at h
      rcases max_choice x mt with hc | hc
    
      · rw [← h, hc]; exact List.mem_cons_self x t
      · rw [← h, hc]; exact List.mem_cons_of_mem x (ih ht)

theorem seriesMax_ge {l : List ℚ} {m : ℚ} (h : seriesMax l = some m) :
    ∀ q ∈ l, q ≤ m := by
  induction l generalizing m with
  | nil => cases h
  | cons x t ih =>
    simp only [seriesMax] at h
    intro q hq
    cases ht : seriesMax t with
    | none =>
      rw [ht] at h
      simp only [Option.some.injEq] at h
      have : t = [] := seriesMax_eq_none.1 ht
      rw [this] at hq
      simp at hq
      rw [hq, ← h]
    | some mt =>
      rw [ht] at h
      simp only [Option.some.injEq] at h
      rcases List.mem_cons.1 hq with rfl | hq
      · rw [← h]; exact le_max_left _ _
      · rw [← h]; exact le_trans (ih ht q hq) (le_max_right _ _)

/-- C6. On a non-empty crime-type-filtered table the statistics callback
succeeds and presents: the summed `CrimeCount`, the mean
`CrimeRatePer1000`, a borough present in the filtered rows whose summed
`CrimeCount` is maximal among all boroughs, and the maximum of the
per-borough mean `CrimeRatePer1000`; on a single-record filtered set the
most affected borough is that record's borough and the highest crime
rate is that record's rate.  The table output repeats the per-borough
aggregation of the filtered rows. -/
theorem update_statistics_spec (rows : List CrimeRow) (c : String)
    (h : filterByCrime rows c ≠ []) :
    ∃ st table, update_statistics_and_table rows c = Except.ok (st, table) ∧
      st.total_crimes = ((filterByCrime rows c).map fun r => r.CrimeCount).sum ∧
      st.average_crime_rate
        = some (meanQ ((filterByCrime rows c).map fun r => r.CrimeRatePer1000)) ∧
      (∃ r ∈ filterByCrime rows c, r.Boroughs = st.most_affected_borough) ∧
      (∀ b ∈ keysOf (fun r => r.Boroughs) (filterByCrime rows c),
        groupSumZ (fun r => r.CrimeCount) (fun r => r.Boroughs)
            (filterByCrime rows c) b
          ≤ groupSumZ (fun r => r.CrimeCount) (fun r => r.Boroughs)
            (filterByCrime rows c) st.most_affected_borough) ∧
      (∃ hq, st.highest_crime_rate = some hq ∧
        hq ∈ boroughRateMeans (filterByCrime rows c) ∧
        ∀ q ∈ boroughRateMeans (filterByCrime rows c), q ≤ hq) ∧
      (∀ r, filterByCrime rows c = [r] →
        st.most_affected_borough = r.Boroughs ∧
        st.highest_crime_rate = some r.CrimeRatePer1000) ∧
      table = borough_data (filterByCrime rows c) := by
  have hkeys : keysOf (fun r => r.Boroughs) (filterByCrime rows c) ≠ [] := by
    cases hfl : filterByCrime rows c with
    | nil => exact absurd hfl h
    | cons r t => simp [keysOf]
  have hpairs : boroughCountPairs (filterByCrime rows c) ≠ [] := by
    simp [boroughCountPairs, hkeys]
  obtain ⟨m, hm⟩ : ∃ m, idxmax (boroughCountPairs (filterByCrime rows c)) = some m := by
    cases hb : boroughCountPairs (filterByCrime rows c) with
    | nil => exact absurd hb hpairs
    | cons p t => exact ⟨idxmaxAux p t, rfl⟩
  have hmmem := idxmax_mem hm
  obtain ⟨b0, hb0, hb0eq⟩ := List.mem_map.1 hmmem
  have hm1 : m.1 = b0 := by rw [← hb0eq]
  have hm2 : m.2 = groupSumZ (fun r => r.CrimeCount) (fun r => r.Boroughs)
      (filterByCrime rows c) m.1 := by
    rw [← hb0eq]
  obtain ⟨hq, hhq⟩ : ∃ q, seriesMax (boroughRateMeans (filterByCrime rows c)) = some q := by
    cases hb : boroughRateMeans (filterByCrime rows c) with
    | nil =>
      exfalso
      apply hkeys
      simpa [boroughRateMeans] using hb
    | cons x t =>
      cases hsx : seriesMax (x :: t) with
      | none => exact absurd (seriesMax_eq_none.1 hsx) (by simp)
      | some q => exact ⟨q, rfl⟩
  have hok : update_statistics_and_table rows c = Except.ok
      (⟨((filterByCrime rows c).map fun r => r.CrimeCount).sum,
        meanQ? ((filterByCrime rows c).map fun r => r.CrimeRatePer1000),
        m.1,
        seriesMax (boroughRateMeans (filterByCrime rows c))⟩,
       borough_data (filterByCrime rows c)) := by
    simp only [update_statistics_and_table, hm]
  refine ⟨_, _, hok, rfl, ?_, ?_, ?_, ?_, ?_, rfl⟩
  · have : ((filterByCrime rows c).map fun r => r.CrimeRatePer1000) ≠ [] := by
      cases hfl : filterByCrime rows c with
      | nil => exact absurd hfl h
      | cons r t => simp
    simp [meanQ?, List.isEmpty_iff, this]
  · refine ⟨?_, ?_, ?_⟩
    · exact Classical.choose (mem_keysOf.1 (hm1 ▸ hb0))
    · exact (Classical.choose_spec (mem_keysOf.1 (hm1 ▸ hb0))).1
    · exact (Classical.choose_spec (mem_keysOf.1 (hm1 ▸ hb0))).2
  · intro b hb
    have hpmem : (b, groupSumZ (fun r => r.CrimeCount) (fun r => r.Boroughs)
        (filterByCrime rows c) b) ∈ boroughCountPairs (filterByCrime rows c) :=
      List.mem_map.2 ⟨b, hb, rfl⟩
    have := idxmax_ge hm _ hpmem
    simpa [hm2] using this
  · rw [hhq]
    exact ⟨hq, rfl, seriesMax_mem hhq, seriesMax_ge hhq⟩
  · intro r hr
    have hk : keysOf (fun x => x.Boroughs) (filterByCrime rows c) = [r.Boroughs] := by
      rw [hr]; rfl
    constructor
    · show m.1 = r.Boroughs
      have : boroughCountPairs (filterByCrime rows c)
          = [(r.Boroughs, groupSumZ (fun x => x.CrimeCount) (fun x => x.Boroughs)
              (filterByCrime rows c) r.Boroughs)] := by
        simp [boroughCountPairs, hk]
      rw [this] at hm
      simp only [idxmax, idxmaxAux, Option.some.injEq] at hm
      rw [← hm]
    · show seriesMax (boroughRateMeans (filterByCrime rows c)) = some r.CrimeRatePer1000
      have : boroughRateMeans (filterByCrime rows c)
          = [groupMeanQ (fun x => x.CrimeRatePer1000) (fun x => x.Boroughs)
              (filterByCrime rows c) r.Boroughs] := by
        simp [boroughRateMeans, hk]
      rw [this]
      have hg : groupMeanQ (fun x => x.CrimeRatePer1000) (fun x => x.Boroughs)
          (filterByCrime rows c) r.Boroughs = r.CrimeRatePer1000 := by
        rw [hr]
        simp [groupMeanQ, groupRows, meanQ]
      rw [hg]
      rfl

/-- Witness for `update_statistics_spec` on the demo table with its
present crime type. -/
theorem update_statistics_spec_witness :
    ∃ st table, update_statistics_and_table demoRows "Burglary" = Except.ok (st, table) ∧
      st.total_crimes = ((filterByCrime demoRows "Burglary").map fun r => r.CrimeCount).sum ∧
      st.average_crime_rate
        = some (meanQ ((filterByCrime demoRows "Burglary").map fun r => r.CrimeRatePer1000)) ∧
      (∃ r ∈ filterByCrime demoRows "Burglary", r.Boroughs = st.most_affected_borough) ∧
      (∀ b ∈ keysOf (fun r => r.Boroughs) (filterByCrime demoRows "Burglary"),
        groupSumZ (fun r => r.CrimeCount) (fun r => r.Boroughs)
            (filterByCrime demoRows "Burglary") b
          ≤ groupSumZ (fun r => r.CrimeCount) (fun r => r.Boroughs)
            (filterByCrime demoRows "Burglary") st.most_affected_borough) ∧
      (∃ hq, st.highest_crime_rate = some hq ∧
        hq ∈ boroughRateMeans (filterByCrime demoRows "Burglary") ∧
        ∀ q ∈ boroughRateMeans (filterByCrime demoRows "Burglary"), q ≤ hq) ∧
      (∀ r, filterByCrime demoRows "Burglary" = [r] →
        st.most_affected_borough = r.Boroughs ∧
        st.highest_crime_rate = some r.CrimeRatePer1000) ∧
      table = borough_data (filterByCrime demoRows "Burglary") :=
  update_statistics_spec demoRows "Burglary" (by decide)

/-- C8. Dispatching any selection-change event leaves both base tables
exactly as loaded and rewrites only the triggered callback's declared
outputs: every other view field is unchanged. -/
theorem applyEvent_frame (s : DashState) (e : SelectionEvent) :
    (applyEvent s e).crime_data = s.crime_data ∧
    (applyEvent s e).geo_df = s.geo_df ∧
    (match e with
     | SelectionEvent.seasonBorough _ =>
        (applyEvent s e).view.comparisonFigure = s.view.comparisonFigure ∧
        (applyEvent s e).view.statisticsContent = s.view.statisticsContent ∧
        (applyEvent s e).view.tableData = s.view.tableData ∧
        (applyEvent s e).view.mapFigure = s.view.mapFigure
     | SelectionEvent.comparison _ _ =>
        (applyEvent s e).view.seasonalFigure = s.view.seasonalFigure ∧
        (applyEvent s e).view.statisticsContent = s.view.statisticsContent ∧
        (applyEvent s e).view.tableData = s.view.tableData ∧
        (applyEvent s e).view.mapFigure = s.view.mapFigure
     | SelectionEvent.statsCrimeType _ =>
        (applyEvent s e).view.seasonalFigure = s.view.seasonalFigure ∧
        (applyEvent s e).view.comparisonFigure = s.view.comparisonFigure ∧
        (applyEvent s e).view.mapFigure = s.view.mapFigure) := by
  cases e with
  | seasonBorough b => exact ⟨rfl, rfl, rfl, rfl, rfl, rfl⟩
  | comparison c bs => exact ⟨rfl, rfl, rfl, rfl, rfl, rfl⟩
  | statsCrimeType c =>
    cases h : update_statistics_and_table s.crime_data c with
    | error msg => simp [applyEvent, h]
    | ok p =>
      obtain ⟨st, t⟩ := p
      simp [applyEvent, h]

/-- C9 fails on the code: on a selection whose filtered row set is empty
the statistics callback does not quietly propagate `NaN` values — the
`idxmax` call raises (the `Except.error` branch), so the callback aborts
with an unhandled exception. -/
theorem empty_filter_statistics_raises :
    filterByCrime demoRows "Arson" = [] ∧
    update_statistics_and_table demoRows "Arson"
      = Except.error "attempt to get argmax of an empty sequence" := by
  exact ⟨by decide, rfl⟩

/-- C9 amended: on an empty filtered row set the aggregation has zero
groups and the column mean is `NaN`, but the statistics computation
raises at the `idxmax` of the empty per-borough series instead of
returning `NaN`-valued statistics. -/
theorem empty_filter_statistics_spec (rows : List CrimeRow) (c : String)
    (h : ∀ r ∈ rows, r.MajorCrime ≠ c) :
    filterByCrime rows c = [] ∧
    keysOf (fun r => r.Boroughs) (filterByCrime rows c) = [] ∧
    meanQ? ((filterByCrime rows c).map fun r => r.CrimeRatePer1000) = none ∧
    update_statistics_and_table rows c
      = Except.error "attempt to get argmax of an empty sequence" := by
  have hfl : filterByCrime rows c = [] := by
    simp only [filterByCrime, List.filter_eq_nil_iff, decide_eq_true_eq]
    exact h
  refine ⟨hfl, ?_, ?_, ?_⟩
  · rw [hfl]; rfl
  · rw [hfl]; rfl
  · simp only [update_statistics_and_table, hfl]
    rfl

/-- Witness for `empty_filter_statistics_spec` on the demo table and its
absent crime type. -/
theorem empty_filter_statistics_spec_witness :
    filterByCrime demoRows "Arson" = [] ∧
    keysOf (fun r => r.Boroughs) (filterByCrime demoRows "Arson") = [] ∧
    meanQ? ((filterByCrime demoRows "Arson").map fun r => r.CrimeRatePer1000) = none ∧
    update_statistics_and_table demoRows "Arson"
      = Except.error "attempt to get argmax of an empty sequence" :=
  empty_filter_statistics_spec demoRows "Arson" (by decide)

theorem mem_mergeOnName {geo : List GeoRow} {aggs : List BoroughLevelAgg}
    {p : GeoRow × BoroughLevelAgg} :
    p ∈ mergeOnName geo aggs ↔
      p.1 ∈ geo ∧ p.2 ∈ aggs ∧ p.2.Boroughs = p.1.name := by
  constructor
  · intro hp
    rcases List.mem_flatMap.1 hp with ⟨g, hg, hpg⟩
    rcases List.mem_map.1 hpg with ⟨a, ha, hpa⟩
    rcases List.mem_filter.1 ha with ⟨ha1, ha2⟩
    rw [← hpa]
    exact ⟨hg, ha1, by simpa using ha2⟩
  · rintro ⟨h1, h2, h3⟩
    refine List.mem_flatMap.2 ⟨p.1, h1, ?_⟩
    refine List.mem_map.2 ⟨p.2, List.mem_filter.2 ⟨h2, by simpa using h3⟩, ?_⟩
    exact Prod.mk.eta

/-- C4 fails on the code: the per-selection map merge does not normalize
the aggregate side.  On the demo data the boundary name and the
aggregate borough name are both the string `"Camden"` — equal, hence in
particular equal after trim+lowercase — yet the per-selection merge
produces zero rows, because the boundary side was lower-cased at startup
while the aggregate side kept its raw name. -/
theorem map_merge_counterexample :
    (∀ a ∈ borough_level_filtered demoRows "Burglary", ∀ g ∈ demoGeo,
      normalizeName a.Boroughs = normalizeName g.name) ∧
    borough_level_filtered demoRows "Burglary" ≠ [] ∧
    merged_filtered demoGeo demoRows "Burglary" = [] ∧
    merged_geo_df demoGeo demoRows ≠ [] := by
  decide

/-- C4 amended: the startup merge (line 75) joins the trim+lowercased
boundary names to the trim+lowercased aggregate names, so names that
differ only in case or surrounding whitespace match there; the
per-selection merge (line 345) joins the startup-normalized boundary
names against the raw aggregate borough names, so an aggregate row
matches only if its raw name is literally the normalized boundary name;
in both merges rows without a match are silently dropped, and when no
name matches the merged output has zero rows. -/
theorem geo_merge_semantics (geo : List GeoRow) (rows : List CrimeRow) (c : String) :
    (∀ g a, ((g, a) ∈ merged_geo_df geo rows) ↔
      ((∃ g0 ∈ geo, g = { g0 with name := normalizeName g0.name }) ∧
       (∃ a0 ∈ borough_level_data rows,
          a = { a0 with Boroughs := normalizeName a0.Boroughs }) ∧
       a.Boroughs = g.name)) ∧
    (∀ g a, ((g, a) ∈ merged_filtered geo rows c) ↔
      ((∃ g0 ∈ geo, g = { g0 with name := normalizeName g0.name }) ∧
       a ∈ borough_level_filtered rows c ∧
       a.Boroughs = g.name)) ∧
    ((∀ a ∈ borough_level_filtered rows c, ∀ g ∈ geo,
        a.Boroughs ≠ normalizeName g.name) →
      merged_filtered geo rows c = []) := by
  refine ⟨?_, ?_, ?_⟩
  · intro g a
    rw [merged_geo_df, mem_mergeOnName]
    simp only [geo_df_normalized, borough_level_data_normalized, List.mem_map]
    constructor
    · rintro ⟨⟨g0, hg0, hg⟩, ⟨a0, ha0, ha⟩, hn⟩
      exact ⟨⟨g0, hg0, hg.symm⟩, ⟨a0, ha0, ha.symm⟩, hn⟩
    · rintro ⟨⟨g0, hg0, hg⟩, ⟨a0, ha0, ha⟩, hn⟩
      exact ⟨⟨g0, hg0, hg.symm⟩, ⟨a0, ha0, ha.symm⟩, hn⟩
  · intro g a
    rw [merged_filtered, mem_mergeOnName]
    simp only [geo_df_normalized, List.mem_map]
    constructor
    · rintro ⟨⟨g0, hg0, hg⟩, ha, hn⟩
      exact ⟨⟨g0, hg0, hg.symm⟩, ha, hn⟩
    · rintro ⟨⟨g0, hg0, hg⟩, ha, hn⟩
      exact ⟨⟨g0, hg0, hg.symm⟩, ha, hn⟩
  · intro h
    rw [List.eq_nil_iff_forall_not_mem]
    rintro ⟨g, a⟩ hp
    rcases mem_mergeOnName.1 hp with ⟨hg, ha, hn⟩
    rcases List.mem_map.1 hg with ⟨g0, hg0, hgeq⟩
    apply h a ha g0 hg0
    rw [hn, ← hgeq]

/-- Witness for `geo_merge_semantics` on the demo data, discharging the
no-match hypothesis of its third clause. -/
theorem geo_merge_semantics_witness :
    merged_filtered demoGeo demoRows "Burglary" = [] :=
  (geo_merge_semantics demoGeo demoRows "Burglary").2.2 (by decide)

theorem filter_map_comm {α β : Type} (f : α → β) (p : β → Bool) (l : List α) :
    (l.map f).filter p = (l.filter fun a => p (f a)).map f := by
  induction l with
  | nil => rfl
  | cons a t ih =>
    simp only [List.map_cons, List.filter_cons]
    by_cases h : p (f a) <;> simp [h, ih]

theorem dedup_filter {α : Type} [DecidableEq α] (p : α → Bool) (l : List α) :
    (l.filter p).dedup = l.dedup.filter p := by
  induction l with
  | nil => rfl
  | cons a t ih =>
    by_cases hm : a ∈ t
    · rw [List.dedup_cons_of_mem hm]
      by_cases hp : p a
      · have h1 : (a :: t).filter p = a :: t.filter p := by simp [List.filter_cons, hp]
        have h2 : a ∈ t.filter p := List.mem_filter.2 ⟨hm, hp⟩
        rw [h1, List.dedup_cons_of_mem h2, ih]
      · have h1 : (a :: t).filter p = t.filter p := by simp [List.filter_cons, hp]
        rw [h1, ih]
    · rw [List.dedup_cons_of_not_mem hm]
      by_cases hp : p a
      · have h1 : (a :: t).filter p = a :: t.filter p := by simp [List.filter_cons, hp]
        have h2 : a ∉ t.filter p := fun hc => hm (List.mem_filter.1 hc).1
        rw [h1, List.dedup_cons_of_not_mem h2, ih]
        simp [List.filter_cons, hp]
      · have h1 : (a :: t).filter p = t.filter p := by simp [List.filter_cons, hp]
        rw [h1, ih]
        simp [List.filter_cons, hp]

theorem keysOf_season_filter (rows : List CrimeRow) (s : String) :
    keysOf seasonKey (rows.filter fun r => season r = s)
      = (keysOf seasonKey rows).filter fun k => k.2 = s := by
  unfold keysOf
  rw [← dedup_filter, filter_map_comm]
  rfl

theorem seasonal_filter_eq (rows : List CrimeRow) (s : String) :
    ((seasonal_data rows).filter fun a => a.Season = s)
      = (keysOf seasonKey (rows.filter fun r => season r = s)).map fun k =>
          (⟨k.1, k.2, groupSumZ (fun r => r.CrimeCount) seasonKey rows k,
            groupMeanQ (fun r => r.CrimeRatePer1000) seasonKey rows k⟩ : SeasonalAgg) := by
  rw [keysOf_season_filter]
  unfold seasonal_data
  rw [filter_map_comm]

theorem groupRows_season_sub (rows : List CrimeRow) (s : String)
    (k : String × String) (hk : k.2 = s) :
    (rows.filter fun r => season r = s).filter (fun r => seasonKey r = k)
      = rows.filter (fun r => seasonKey r = k) := by
  rw [List.filter_filter]
  apply List.filter_congr
  intro r _
  by_cases h : seasonKey r = k
  · have hs : season r = s := by
      rw [← hk, ← h]
      rfl
    simp [h, hs]
  · simp [h]

theorem per_season_count (rows : List CrimeRow) (s : String) :
    groupSumZ (fun a => a.CrimeCount) (fun a => a.Season) (seasonal_data rows) s
      = ((rows.filter fun r => season r = s).map fun r => r.CrimeCount).sum := by
  have hpt : ∀ k ∈ keysOf seasonKey (rows.filter fun r => season r = s),
      groupSumZ (fun r => r.CrimeCount) seasonKey rows k
        = (((rows.filter fun r => season r = s).filter
            fun r => seasonKey r = k).map fun r => r.CrimeCount).sum := by
    intro k hk
    have hk2 : k.2 = s := by
      rcases mem_keysOf.1 hk with ⟨r, hr, hrk⟩
      have h1 : season r = s := by
        have := (List.mem_filter.1 hr).2
        simpa using this
      rw [← hrk]
      exact h1
    rw [groupRows_season_sub rows s k hk2]
    rfl
  unfold groupSumZ groupRows
  rw [seasonal_filter_eq rows s, List.map_map]
  show ((keysOf seasonKey (rows.filter fun r => season r = s)).map fun k =>
      groupSumZ (fun r => r.CrimeCount) seasonKey rows k).sum = _
  rw [List.map_congr_left hpt]
  exact sum_over_keysOf _ _ _

theorem per_season_rate (rows : List CrimeRow) (s : String) :
    groupMeanQ (fun a => a.CrimeRatePer1000) (fun a => a.Season) (seasonal_data rows) s
      = meanQ ((keysOf seasonKey (rows.filter fun r => season r = s)).map
          fun k => meanQ (((rows.filter fun r => season r = s).filter
            fun r => seasonKey r = k).map fun r => r.CrimeRatePer1000)) := by
  have hpt : ∀ k ∈ keysOf seasonKey (rows.filter fun r => season r = s),
      groupMeanQ (fun r => r.CrimeRatePer1000) seasonKey rows k
        = meanQ (((rows.filter fun r => season r = s).filter
            fun r => seasonKey r = k).map fun r => r.CrimeRatePer1000) := by
    intro k hk
    have hk2 : k.2 = s := by
      rcases mem_keysOf.1 hk with ⟨r, hr, hrk⟩
      have h1 : season r = s := by
        have := (List.mem_filter.1 hr).2
        simpa using this
      rw [← hrk]
      exact h1
    rw [groupRows_season_sub rows s k hk2]
    rfl
  unfold groupMeanQ groupRows
  rw [seasonal_filter_eq rows s, List.map_map]
  show meanQ ((keysOf seasonKey (rows.filter fun r => season r = s)).map fun k =>
      groupMeanQ (fun r => r.CrimeRatePer1000) seasonKey rows k) = _
  rw [List.map_congr_left hpt]

/-- C10. The `'All'` branch of the seasonal callback re-aggregates the
per-(borough, season) table: its per-season `CrimeCount` always equals
the direct per-season sum over the base table, while its per-season
`CrimeRatePer1000` is the unweighted mean of the per-(borough, season)
means — which on the three-row demo table is 11/2, different from the
mean 4 of `CrimeRatePer1000` over that season's base rows. -/
theorem seasonal_all_refines_base (rows : List CrimeRow) :
    (∀ a ∈ seasonal_all rows,
      a.CrimeCount
        = ((rows.filter fun r => season r = a.Season).map fun r => r.CrimeCount).sum ∧
      a.CrimeRatePer1000
        = meanQ ((keysOf seasonKey (rows.filter fun r => season r = a.Season)).map
            fun k => meanQ (((rows.filter fun r => season r = a.Season).filter
              fun r => seasonKey r = k).map fun r => r.CrimeRatePer1000))) ∧
    seasonRateOf (seasonal_all c10rows) "Winter" = some (11 / 2) ∧
    meanQ ((c10rows.filter fun r => season r = "Winter").map
      fun r => r.CrimeRatePer1000) = 4 ∧
    ((11 : ℚ) / 2) ≠ 4 := by
  refine ⟨?_, ?_, ?_, by norm_num⟩
  · intro a ha
    obtain ⟨s, hs, hmk⟩ := List.mem_map.1 ha
    rw [← hmk]
    exact ⟨per_season_count rows s, per_season_rate rows s⟩
  · simp +decide [seasonal_all, seasonal_data, seasonRateOf, keysOf, groupSumZ,
      groupMeanQ, groupRows, meanQ, seasonKey, season, get_season, c10rows]
    norm_num
  · simp +decide [meanQ, c10rows, season, get_season]
    norm_num

/-- Witness for `seasonal_all_refines_base`: its per-row clause applied
to the winter row of the `'All'` aggregation of the demo table. -/
theorem seasonal_all_refines_base_witness :
    ∃ a, a ∈ seasonal_all c10rows ∧
      a.CrimeCount
        = ((c10rows.filter fun r => season r = a.Season).map fun r => r.CrimeCount).sum ∧
      a.CrimeRatePer1000
        = meanQ ((keysOf seasonKey (c10rows.filter fun r => season r = a.Season)).map
            fun k => meanQ (((c10rows.filter fun r => season r = a.Season).filter
              fun r => seasonKey r = k).map fun r => r.CrimeRatePer1000)) := by
  have hmem : (⟨"Winter", 30, 11 / 2⟩ : SeasonAgg) ∈ seasonal_all c10rows := by
    simp +decide [seasonal_all, seasonal_data, keysOf, groupSumZ, groupMeanQ,
      groupRows, meanQ, seasonKey, season, get_season, c10rows, SeasonAgg.mk.injEq]
    norm_num
  exact ⟨_, hmem, (seasonal_all_refines_base c10rows).1 _ hmem⟩
